import Mathlib

/-!
Verification of the NDID end-to-end API test suite harness.

We give a shallow embedding of the harness code: the per-node API address
resolution and HTTP wrappers from `src/api/helpers.js`, the callback event
listeners registered by the test files in their `before` hooks, the node
availability check of `src/tests/index.js`, and the listener bookkeeping of
the `before`/`after` hooks.

JavaScript conventions are modelled explicitly: a possibly-undefined config
map becomes `Option`, a thrown `Error` becomes `Except.error`, JS truthiness
of a string-valued map entry is `some s` with `s` nonempty, and property
access on `undefined` (for example `service_list[0].signed_data_count` on an
empty list) becomes `Except.error ()`.
-/

/-! ## `src/api/helpers.js` -/

/-- The value of `nodeIdMappingAddress && nodeIdMappingAddress[nodeId]` when
it is truthy: the config map may itself be undefined (`Option` on the map),
a key may be absent (`Option` on the lookup), and an empty-string entry is
falsy in JS. -/
def mappedAddress (nodeIdMappingAddress : Option (String → Option String))
    (nodeId : String) : Option String :=
  match nodeIdMappingAddress with
  | none => none
  | some m =>
    match m nodeId with
    | none => none
    | some addr => if addr = "" then none else some addr

/-- `getApiAddressUrl` from `src/api/helpers.js`: a truthy entry of
`nodeIdMappingAddress` wins; otherwise the if-else chain over the ten
built-in node ids; otherwise `throw new Error('Unsupported Node ID')`. -/
def getApiAddressUrl (nodeIdMappingAddress : Option (String → Option String))
    (nodeId : String) : Except String String :=
  match mappedAddress nodeIdMappingAddress nodeId with
  | some addr => Except.ok addr
  | none =>
    if nodeId = "rp1" then Except.ok "http://localhost:8200"
    else if nodeId = "rp2" then Except.ok "http://localhost:8201"
    else if nodeId = "idp1" then Except.ok "http://localhost:8100"
    else if nodeId = "idp2" then Except.ok "http://localhost:8101"
    else if nodeId = "idp3" then Except.ok "http://localhost:8102"
    else if nodeId = "as1" then Except.ok "http://localhost:8300"
    else if nodeId = "as2" then Except.ok "http://localhost:8301"
    else if nodeId = "ndid1" then Except.ok "http://localhost:8080"
    else if nodeId = "proxy1" then Except.ok "http://localhost:8400"
    else if nodeId = "proxy2" then Except.ok "http://localhost:8401"
    else Except.error "Unsupported Node ID"

/-- The ten node ids handled by the built-in if-else chain of
`getApiAddressUrl`. -/
def builtinNodeIds : List String :=
  ["rp1", "rp2", "idp1", "idp2", "idp3", "as1", "as2", "ndid1", "proxy1",
   "proxy2"]

/-- A call to `fetch`, as issued by the HTTP wrappers in
`src/api/helpers.js`: url, method, header list in source order, and an
optional request body. -/
structure FetchCall where
  url : String
  method : String
  headers : List (String × String)
  body : Option String
  deriving Repr, DecidableEq

/-- `httpGet` from `src/api/helpers.js`. -/
def httpGet (url : String) : FetchCall :=
  { url := url
    method := "GET"
    headers := [("Accept", "application/json")]
    body := none }

/-- `httpPost` from `src/api/helpers.js`. `JSON.stringify` is a JS platform
primitive, not repository code, so it is passed in as the serialization
function of the abstract body type. -/
def httpPost {α : Type} (jsonStringify : α → String) (url : String)
    (body : α) : FetchCall :=
  { url := url
    method := "POST"
    headers := [("Accept", "application/json"),
                ("Content-Type", "application/json")]
    body := some (jsonStringify body) }

/-! ## Claims C1, C6, C8, C9 -/

/-- C1: For every supported node id with no (truthy) entry in
`nodeIdMappingAddress`, `getApiAddressUrl` returns the fixed base URL of
that node. -/
theorem getApiAddressUrl_builtin_defaults
    (cfg : Option (String → Option String)) (nodeId : String)
    (h : mappedAddress cfg nodeId = none) :
    (nodeId = "rp1" → getApiAddressUrl cfg nodeId =
      Except.ok "http://localhost:8200") ∧
    (nodeId = "rp2" → getApiAddressUrl cfg nodeId =
      Except.ok "http://localhost:8201") ∧
    (nodeId = "idp1" → getApiAddressUrl cfg nodeId =
      Except.ok "http://localhost:8100") ∧
    (nodeId = "idp2" → getApiAddressUrl cfg nodeId =
      Except.ok "http://localhost:8101") ∧
    (nodeId = "idp3" → getApiAddressUrl cfg nodeId =
      Except.ok "http://localhost:8102") ∧
    (nodeId = "as1" → getApiAddressUrl cfg nodeId =
      Except.ok "http://localhost:8300") ∧
    (nodeId = "as2" → getApiAddressUrl cfg nodeId =
      Except.ok "http://localhost:8301") ∧
    (nodeId = "ndid1" → getApiAddressUrl cfg nodeId =
      Except.ok "http://localhost:8080") ∧
    (nodeId = "proxy1" → getApiAddressUrl cfg nodeId =
      Except.ok "http://localhost:8400") ∧
    (nodeId = "proxy2" → getApiAddressUrl cfg nodeId =
      Except.ok "http://localhost:8401") := by
  refine ⟨?_, ?_, ?_, ?_, ?_, ?_, ?_, ?_, ?_, ?_⟩ <;>
    (rintro rfl; simp [getApiAddressUrl, h])

/-- Witness for C1 at the concrete node id `rp1` with an undefined config
map. -/
theorem getApiAddressUrl_builtin_defaults_witness :
    mappedAddress none "rp1" = none ∧
    getApiAddressUrl none "rp1" = Except.ok "http://localhost:8200" := by
  have h := getApiAddressUrl_builtin_defaults none "rp1" rfl
  exact ⟨rfl, h.1 rfl⟩

/-- C6: `httpPost` issues a POST with the JSON accept/content-type headers
and body `JSON.stringify(body)`; `httpGet` issues a GET with the JSON
accept header and no body. -/
theorem httpPost_httpGet_request_shape {α : Type}
    (jsonStringify : α → String) (url : String) (body : α) :
    httpPost jsonStringify url body =
      { url := url
        method := "POST"
        headers := [("Accept", "application/json"),
                    ("Content-Type", "application/json")]
        body := some (jsonStringify body) } ∧
    httpGet url =
      { url := url
        method := "GET"
        headers := [("Accept", "application/json")]
        body := none } :=
  ⟨rfl, rfl⟩

/-- C8: a truthy `nodeIdMappingAddress` entry takes precedence and is
returned as-is, with no error, for any node id whatsoever. -/
theorem getApiAddressUrl_mapping_precedence
    (cfg : Option (String → Option String)) (nodeId addr : String)
    (h : mappedAddress cfg nodeId = some addr) :
    getApiAddressUrl cfg nodeId = Except.ok addr := by
  simp [getApiAddressUrl, h]

/-- Witness for C8 at a node id outside the ten built-in ones. -/
theorem getApiAddressUrl_mapping_precedence_witness :
    mappedAddress
        (some fun n => if n = "customNode" then some "http://example.com:9999"
          else none)
        "customNode" = some "http://example.com:9999" ∧
    getApiAddressUrl
        (some fun n => if n = "customNode" then some "http://example.com:9999"
          else none)
        "customNode" = Except.ok "http://example.com:9999" := by
  refine ⟨by decide, ?_⟩
  exact getApiAddressUrl_mapping_precedence _ "customNode"
    "http://example.com:9999" (by decide)

/-- C9: a node id outside the ten built-in ones with no truthy mapping
entry makes `getApiAddressUrl` throw `Error('Unsupported Node ID')`. -/
theorem getApiAddressUrl_unsupported
    (cfg : Option (String → Option String)) (nodeId : String)
    (h : mappedAddress cfg nodeId = none)
    (hb : nodeId ∉ builtinNodeIds) :
    getApiAddressUrl cfg nodeId = Except.error "Unsupported Node ID" := by
  simp only [builtinNodeIds, List.mem_cons, List.not_mem_nil, or_false,
    not_or] at hb
  obtain ⟨h1, h2, h3, h4, h5, h6, h7, h8, h9, h10⟩ := hb
  simp [getApiAddressUrl, h, h1, h2, h3, h4, h5, h6, h7, h8, h9, h10]

/-- Witness for C9 at the concrete unsupported node id `rp3`. -/
theorem getApiAddressUrl_unsupported_witness :
    mappedAddress none "rp3" = none ∧
    "rp3" ∉ builtinNodeIds ∧
    getApiAddressUrl none "rp3" = Except.error "Unsupported Node ID" :=
  ⟨rfl, by decide, getApiAddressUrl_unsupported none "rp3" rfl (by decide)⟩

/-! ## Callback payloads

The callback servers deliver JSON objects to the listeners registered on the
per-node event emitters. We model the fields the listeners inspect. -/

/-- One entry of the `service_list` field of a `request_status` callback. -/
structure ServiceEntry where
  signed_data_count : Int
  received_data_count : Int
  deriving Repr, DecidableEq

/-- The callback payload fields inspected by the listeners under
verification. -/
structure CallbackData where
  type : String
  reference_id : String
  request_id : String
  status : String
  closed : Bool
  service_list : List ServiceEntry
  deriving Repr, DecidableEq

/-! ## Enable-service-destination test (NDID enable service destination)

Listeners registered in the `before` hook of the unnamed test file whose
suite is `NDID enable service destination test`. -/

/-- The event promises awaited by the enable-service-destination test. -/
inductive EnableServicePromise where
  | createRequestResult
  | incomingRequest
  | responseResult
  | dataRequestReceived
  | sendDataResult
  deriving Repr, DecidableEq

/-- The `rpEventEmitter.on('callback', ...)` listener of the
enable-service-destination test: which promise, if any, the callback
resolves. -/
def rpListenerEnableService (rpReferenceId : String) (cb : CallbackData) :
    Option EnableServicePromise :=
  if cb.type = "create_request_result" ∧ cb.reference_id = rpReferenceId
  then some EnableServicePromise.createRequestResult
  else none

/-- The `idp1EventEmitter.on('callback', ...)` listener of the
enable-service-destination test. -/
def idp1ListenerEnableService (idpReferenceId requestId : String)
    (cb : CallbackData) : Option EnableServicePromise :=
  if cb.type = "incoming_request" ∧ cb.request_id = requestId
  then some EnableServicePromise.incomingRequest
  else if cb.type = "response_result" ∧ cb.reference_id = idpReferenceId
  then some EnableServicePromise.responseResult
  else none

/-- The `as1EventEmitter.on('callback', ...)` listener of the
enable-service-destination test; note the nested `if` on `reference_id`
inside the `send_data_result` branch. -/
def as1ListenerEnableService (asServiceReferenceId requestId : String)
    (cb : CallbackData) : Option EnableServicePromise :=
  if cb.type = "data_request" ∧ cb.request_id = requestId
  then some EnableServicePromise.dataRequestReceived
  else if cb.type = "send_data_result" then
    if cb.reference_id = asServiceReferenceId
    then some EnableServicePromise.sendDataResult
    else none
  else none

/-- C2: in the enable-service-destination test, each event promise is
resolved exactly by a callback matching its designated event, and any other
callback resolves none of the five promises. -/
theorem enableService_listeners_exact
    (rpReferenceId idpReferenceId asServiceReferenceId requestId : String)
    (cb : CallbackData) :
    (rpListenerEnableService rpReferenceId cb =
        some EnableServicePromise.createRequestResult ↔
      cb.type = "create_request_result" ∧
        cb.reference_id = rpReferenceId) ∧
    (idp1ListenerEnableService idpReferenceId requestId cb =
        some EnableServicePromise.incomingRequest ↔
      cb.type = "incoming_request" ∧ cb.request_id = requestId) ∧
    (idp1ListenerEnableService idpReferenceId requestId cb =
        some EnableServicePromise.responseResult ↔
      cb.type = "response_result" ∧ cb.reference_id = idpReferenceId) ∧
    (as1ListenerEnableService asServiceReferenceId requestId cb =
        some EnableServicePromise.dataRequestReceived ↔
      cb.type = "data_request" ∧ cb.request_id = requestId) ∧
    (as1ListenerEnableService asServiceReferenceId requestId cb =
        some EnableServicePromise.sendDataResult ↔
      cb.type = "send_data_result" ∧
        cb.reference_id = asServiceReferenceId) := by
  refine ⟨?_, ?_, ?_, ?_, ?_⟩ <;>
    · simp only [rpListenerEnableService, idp1ListenerEnableService,
        as1ListenerEnableService]
      split <;> try split
      all_goals simp_all

/-! ## Too-large AS data test (mode 3, response through callback)

The `rpEventEmitter.on('callback', ...)` listener registered in the
`before` hook of the unnamed test file whose suite is `Too large AS data
size, response through callback, 1 IdP, 1 AS, mode 3`. -/

/-- The RP-side event promises of the too-large-AS-data test. -/
inductive TooLargePromise where
  | createRequestResult
  | statusPending
  | statusSignedData
  | statusConfirmed
  | requestClosed
  | statusCompleted
  deriving Repr, DecidableEq

/-- Result of running the too-large-AS-data RP listener on one callback:
the promises it resolves (in order) and whether it pushed the callback onto
`requestStatusUpdates`. `Except.error ()` models the JS `TypeError` thrown
by `callbackData.service_list[0].signed_data_count` when `service_list` is
empty or absent. -/
def rpListenerTooLarge (rpReferenceId requestId : String)
    (cb : CallbackData) : Except Unit (List TooLargePromise × Bool) :=
  if cb.type = "create_request_result" ∧ cb.reference_id = rpReferenceId
  then Except.ok ([TooLargePromise.createRequestResult], false)
  else if cb.type = "request_status" ∧ cb.request_id = requestId then
    if cb.status = "pending"
    then Except.ok ([TooLargePromise.statusPending], true)
    else if cb.status = "confirmed" then
      match cb.service_list with
      | [] => Except.error ()
      | s0 :: _ =>
        if s0.signed_data_count = 1
        then Except.ok ([TooLargePromise.statusSignedData], true)
        else Except.ok ([TooLargePromise.statusConfirmed], true)
    else if cb.status = "completed" then
      if cb.closed
      then Except.ok ([TooLargePromise.requestClosed], true)
      else Except.ok ([TooLargePromise.statusCompleted], true)
    else Except.ok ([], true)
  else Except.ok ([], false)

/-- How many of the awaited promises a listener run resolves. -/
def resolvedCount (r : Except Unit (List TooLargePromise × Bool)) : Nat :=
  match r with
  | Except.ok (l, _) => l.length
  | Except.error _ => 0

/-- `signed_data_count` of `service_list[0]`, when defined. -/
def signedDataCount0 (cb : CallbackData) : Option Int :=
  cb.service_list.head?.map ServiceEntry.signed_data_count

/-- C3: the too-large-AS-data RP request-status dispatcher resolves
`pending`/`confirmed`/`completed` callbacks as described, at most one
promise per callback, and resolves no promise for any other status value
(in particular `complicated` has no branch). -/
theorem rpListenerTooLarge_dispatch (rpReferenceId requestId : String)
    (cb : CallbackData)
    (htype : cb.type = "request_status")
    (hreq : cb.request_id = requestId) :
    (cb.status = "pending" → rpListenerTooLarge rpReferenceId requestId cb =
      Except.ok ([TooLargePromise.statusPending], true)) ∧
    (cb.status = "confirmed" → signedDataCount0 cb = some 1 →
      rpListenerTooLarge rpReferenceId requestId cb =
        Except.ok ([TooLargePromise.statusSignedData], true)) ∧
    (cb.status = "confirmed" → (signedDataCount0 cb).isSome →
      signedDataCount0 cb ≠ some 1 →
      rpListenerTooLarge rpReferenceId requestId cb =
        Except.ok ([TooLargePromise.statusConfirmed], true)) ∧
    (cb.status = "completed" → cb.closed = true →
      rpListenerTooLarge rpReferenceId requestId cb =
        Except.ok ([TooLargePromise.requestClosed], true)) ∧
    (cb.status = "completed" → cb.closed = false →
      rpListenerTooLarge rpReferenceId requestId cb =
        Except.ok ([TooLargePromise.statusCompleted], true)) ∧
    (cb.status ∉ (["pending", "confirmed", "completed"] : List String) →
      rpListenerTooLarge rpReferenceId requestId cb =
        Except.ok ([], true)) ∧
    resolvedCount (rpListenerTooLarge rpReferenceId requestId cb) ≤ 1 := by
  have hne : ¬(cb.type = "create_request_result" ∧
      cb.reference_id = rpReferenceId) := by
    simp [htype]
  refine ⟨?_, ?_, ?_, ?_, ?_, ?_, ?_⟩
  · intro hs
    simp [rpListenerTooLarge, hne, htype, hreq, hs]
  · intro hs hc
    cases hl : cb.service_list with
    | nil => simp [signedDataCount0, hl] at hc
    | cons s0 rest =>
      simp [signedDataCount0, hl] at hc
      simp [rpListenerTooLarge, hne, htype, hreq, hs, hl, hc]
  · intro hs hsome hc
    cases hl : cb.service_list with
    | nil => simp [signedDataCount0, hl] at hsome
    | cons s0 rest =>
      have hc0 : ¬s0.signed_data_count = 1 := by
        intro h1
        exact hc (by simp [signedDataCount0, hl, h1])
      simp [rpListenerTooLarge, hne, htype, hreq, hs, hl, hc0]
  · intro hs hcl
    simp [rpListenerTooLarge, hne, htype, hreq, hs, hcl]
  · intro hs hcl
    simp [rpListenerTooLarge, hne, htype, hreq, hs, hcl]
  · intro hs
    simp only [List.mem_cons, List.not_mem_nil, or_false, not_or] at hs
    obtain ⟨h1, h2, h3⟩ := hs
    simp [rpListenerTooLarge, hne, htype, hreq, h1, h2, h3]
  · unfold rpListenerTooLarge
    repeat' split
    all_goals simp [resolvedCount]

/-- Witness for C3 at a concrete `confirmed` callback whose first service
entry has `signed_data_count = 1`. -/
theorem rpListenerTooLarge_dispatch_witness :
    (CallbackData.mk "request_status" "" "req-1" "confirmed" false
        [ServiceEntry.mk 1 0]).type = "request_status" ∧
    (CallbackData.mk "request_status" "" "req-1" "confirmed" false
        [ServiceEntry.mk 1 0]).request_id = "req-1" ∧
    rpListenerTooLarge "rp-ref" "req-1"
        (CallbackData.mk "request_status" "" "req-1" "confirmed" false
          [ServiceEntry.mk 1 0]) =
      Except.ok ([TooLargePromise.statusSignedData], true) :=
  ⟨rfl, rfl,
    ((rpListenerTooLarge_dispatch "rp-ref" "req-1"
      (CallbackData.mk "request_status" "" "req-1" "confirmed" false
        [ServiceEntry.mk 1 0]) rfl rfl).2.1 rfl rfl)⟩

/-! ## Verify-identity test (2 IdPs, 1 accept, 1 reject, mode 1)

The `rpEventEmitter.on('callback', ...)` listener registered in the
`before` hook of
`src/tests/verify_identity/2_idp_1_accept_1_reject_mode_1.js`. -/

/-- The RP-side event promises of the 2-IdP mode-1 verify-identity test. -/
inductive VerifyIdentityPromise where
  | createRequestResult
  | statusPending
  | statusConfirmed
  | statusComplicated
  | requestClosed
  | closeRequestResult
  deriving Repr, DecidableEq

/-- The verify-identity RP listener: the promises resolved by one callback
(in resolution order) and whether the callback was pushed onto
`requestStatusUpdates`. In the `complicated` branch the `closed` check has
no `else`: a closed callback resolves `requestClosedPromise` and then also
`requestStatusComplicatedPromise`. -/
def rpListenerVerifyIdentity
    (rpReferenceId rpCloseRequestReferenceId requestId : String)
    (cb : CallbackData) : List VerifyIdentityPromise × Bool :=
  if cb.type = "create_request_result" ∧ cb.reference_id = rpReferenceId
  then ([VerifyIdentityPromise.createRequestResult], false)
  else if cb.type = "request_status" ∧ cb.request_id = requestId then
    ((if cb.status = "pending" then [VerifyIdentityPromise.statusPending]
      else if cb.status = "confirmed" then
        [VerifyIdentityPromise.statusConfirmed]
      else if cb.status = "complicated" then
        (if cb.closed then [VerifyIdentityPromise.requestClosed] else []) ++
          [VerifyIdentityPromise.statusComplicated]
      else []), true)
  else if cb.type = "close_request_result" ∧
      cb.reference_id = rpCloseRequestReferenceId
  then ([VerifyIdentityPromise.closeRequestResult], false)
  else ([], false)

/-- C4: a matching `complicated` request-status callback always resolves
the complicated promise, a closed one additionally resolves the
request-closed promise from the same callback, and every matching
request-status callback is pushed onto `requestStatusUpdates` whatever its
status. -/
theorem rpListenerVerifyIdentity_complicated
    (rpReferenceId rpCloseRequestReferenceId requestId : String)
    (cb : CallbackData)
    (htype : cb.type = "request_status")
    (hreq : cb.request_id = requestId) :
    (cb.status = "complicated" →
      VerifyIdentityPromise.statusComplicated ∈
        (rpListenerVerifyIdentity rpReferenceId rpCloseRequestReferenceId
          requestId cb).1) ∧
    (cb.status = "complicated" → cb.closed = true →
      (rpListenerVerifyIdentity rpReferenceId rpCloseRequestReferenceId
          requestId cb).1 =
        [VerifyIdentityPromise.requestClosed,
         VerifyIdentityPromise.statusComplicated]) ∧
    (rpListenerVerifyIdentity rpReferenceId rpCloseRequestReferenceId
      requestId cb).2 = true := by
  have hne : ¬(cb.type = "create_request_result" ∧
      cb.reference_id = rpReferenceId) := by
    simp [htype]
  refine ⟨?_, ?_, ?_⟩
  · intro hs
    by_cases hcl : cb.closed <;>
      simp [rpListenerVerifyIdentity, hne, htype, hreq, hs, hcl]
  · intro hs hcl
    simp [rpListenerVerifyIdentity, hne, htype, hreq, hs, hcl]
  · simp [rpListenerVerifyIdentity, hne, htype, hreq]

/-- Witness for C4 at a concrete closed `complicated` callback. -/
theorem rpListenerVerifyIdentity_complicated_witness :
    (CallbackData.mk "request_status" "" "req-2" "complicated" true
        []).type = "request_status" ∧
    (CallbackData.mk "request_status" "" "req-2" "complicated" true
        []).request_id = "req-2" ∧
    (VerifyIdentityPromise.statusComplicated ∈
        (rpListenerVerifyIdentity "r1" "r2" "req-2"
          (CallbackData.mk "request_status" "" "req-2" "complicated" true
            [])).1 ∧
      (rpListenerVerifyIdentity "r1" "r2" "req-2"
          (CallbackData.mk "request_status" "" "req-2" "complicated" true
            [])).1 =
        [VerifyIdentityPromise.requestClosed,
         VerifyIdentityPromise.statusComplicated] ∧
      (rpListenerVerifyIdentity "r1" "r2" "req-2"
          (CallbackData.mk "request_status" "" "req-2" "complicated" true
            [])).2 = true) := by
  have h := rpListenerVerifyIdentity_complicated "r1" "r2" "req-2"
    (CallbackData.mk "request_status" "" "req-2" "complicated" true [])
    rfl rfl
  exact ⟨rfl, rfl, h.1 rfl, h.2.1 rfl rfl, h.2.2⟩

/-! ## `src/tests/index.js`: node availability check -/

/-- The availability flags exported by `src/tests/index.js`. -/
structure NodeFlags where
  ndidAvailable : Bool
  rpAvailable : Bool
  idp1Available : Bool
  idp2Available : Bool
  as1Available : Bool
  as2Available : Bool
  proxy1Available : Bool
  proxy2Available : Bool
  deriving Repr, DecidableEq

/-- The node ids passed to `isNodeAvailable` in the `Promise.all` of
`checkForAvailableNodes`, in source order. -/
def checkedNodeIds : List String :=
  ["ndid1", "rp1", "idp1", "idp2", "as1", "as2", "proxy1", "proxy2"]

/-- `checkForAvailableNodes` from `src/tests/index.js`: queries
`isNodeAvailable` for each of the eight nodes and assigns the exported
flags positionally. -/
def checkForAvailableNodes (isNodeAvailable : String → Bool) : NodeFlags :=
  { ndidAvailable := isNodeAvailable "ndid1"
    rpAvailable := isNodeAvailable "rp1"
    idp1Available := isNodeAvailable "idp1"
    idp2Available := isNodeAvailable "idp2"
    as1Available := isNodeAvailable "as1"
    as2Available := isNodeAvailable "as2"
    proxy1Available := isNodeAvailable "proxy1"
    proxy2Available := isNodeAvailable "proxy2" }

/-- The top-level suite `before` hook of `src/tests/index.js`: after
`checkForAvailableNodes`, it throws when `!rpAvailable || !idp1Available`
and otherwise completes with the flags assigned. -/
def indexBeforeHook (isNodeAvailable : String → Bool) :
    Except String NodeFlags :=
  let flags := checkForAvailableNodes isNodeAvailable
  if !flags.rpAvailable || !flags.idp1Available
  then Except.error "Could not connect to RP and IdP-1 nodes"
  else Except.ok flags

/-- C5: the before hook checks exactly the eight nodes, assigns each flag
from the result for the same node id, and throws
`Could not connect to RP and IdP-1 nodes` precisely when `rp1` or `idp1`
is unavailable; unavailability of the other six nodes alone never aborts
the suite. -/
theorem indexBeforeHook_availability (isNodeAvailable : String → Bool) :
    checkedNodeIds =
      ["ndid1", "rp1", "idp1", "idp2", "as1", "as2", "proxy1", "proxy2"] ∧
    checkForAvailableNodes isNodeAvailable =
      { ndidAvailable := isNodeAvailable "ndid1"
        rpAvailable := isNodeAvailable "rp1"
        idp1Available := isNodeAvailable "idp1"
        idp2Available := isNodeAvailable "idp2"
        as1Available := isNodeAvailable "as1"
        as2Available := isNodeAvailable "as2"
        proxy1Available := isNodeAvailable "proxy1"
        proxy2Available := isNodeAvailable "proxy2" } ∧
    (indexBeforeHook isNodeAvailable =
        Except.error "Could not connect to RP and IdP-1 nodes" ↔
      isNodeAvailable "rp1" = false ∨ isNodeAvailable "idp1" = false) ∧
    (indexBeforeHook isNodeAvailable =
        Except.ok (checkForAvailableNodes isNodeAvailable) ↔
      isNodeAvailable "rp1" = true ∧ isNodeAvailable "idp1" = true) := by
  refine ⟨rfl, rfl, ?_, ?_⟩ <;>
    cases hrp : isNodeAvailable "rp1" <;>
      cases hidp : isNodeAvailable "idp1" <;>
        simp [indexBeforeHook, checkForAvailableNodes, hrp, hidp]

/-! ## Token test: `src/tests/token/reduce_token_fail_tx.js` -/

/-- A `setNodeToken` API call body: `{ node_id, amount }`. -/
structure SetNodeTokenCall where
  node_id : String
  amount : Int
  deriving Repr, DecidableEq

/-- The value of the file-scope variable `nodeTokenBeforeTest` once the
`before` hook has run: it is initialised to `0`, and the hook records
idp1's current token amount unless it skips (when `ndid1` or `idp1` is
unavailable, `this.skip()` fires before the read). -/
def nodeTokenBeforeTestAfterHook (ndidAvailable idp1Available : Bool)
    (idp1TokenAmount : Int) : Int :=
  if !ndidAvailable || !idp1Available then 0 else idp1TokenAmount

/-- The `after` hook of the reduce-token test: the node the API call is
sent to and the `setNodeToken` body, built from `nodeTokenBeforeTest`. -/
def reduceTokenAfterHookCall (nodeTokenBeforeTest : Int) :
    String × SetNodeTokenCall :=
  ("ndid1", { node_id := "idp1", amount := nodeTokenBeforeTest })

/-- Effect of a `setNodeToken` call on the platform token ledger: the named
node's token amount becomes the requested amount. -/
def applySetNodeToken (tokens : String → Int) (c : SetNodeTokenCall) :
    String → Int :=
  fun n => if n = c.node_id then c.amount else tokens n

/-- C7: with `ndid1` and `idp1` available, the reduce-token test records
idp1's token amount in its `before` hook and its `after` hook sends
`setNodeToken` to `ndid1` for node `idp1` with exactly that amount, so
whatever the tests did to the ledger in between, idp1's balance is restored
to its pre-test value. -/
theorem reduceToken_restores_idp1_balance
    (ndidAvailable idp1Available : Bool)
    (hndid : ndidAvailable = true) (hidp1 : idp1Available = true)
    (tokens tokensMid : String → Int) :
    (reduceTokenAfterHookCall
        (nodeTokenBeforeTestAfterHook ndidAvailable idp1Available
          (tokens "idp1"))).1 = "ndid1" ∧
    (reduceTokenAfterHookCall
        (nodeTokenBeforeTestAfterHook ndidAvailable idp1Available
          (tokens "idp1"))).2.node_id = "idp1" ∧
    applySetNodeToken tokensMid
        (reduceTokenAfterHookCall
          (nodeTokenBeforeTestAfterHook ndidAvailable idp1Available
            (tokens "idp1"))).2 "idp1" = tokens "idp1" := by
  subst hndid hidp1
  refine ⟨rfl, rfl, ?_⟩
  simp [applySetNodeToken, reduceTokenAfterHookCall,
    nodeTokenBeforeTestAfterHook]

/-- Witness for C7 at a concrete ledger holding 42 tokens for idp1 before
the test and 0 after the failed-transaction tests. -/
theorem reduceToken_restores_idp1_balance_witness :
    (true = true ∧ true = true) ∧
    ((reduceTokenAfterHookCall
        (nodeTokenBeforeTestAfterHook true true
          ((fun _ => (42 : Int)) "idp1"))).1 = "ndid1" ∧
      (reduceTokenAfterHookCall
          (nodeTokenBeforeTestAfterHook true true
            ((fun _ => (42 : Int)) "idp1"))).2.node_id = "idp1" ∧
      applySetNodeToken (fun _ => 0)
          (reduceTokenAfterHookCall
            (nodeTokenBeforeTestAfterHook true true
              ((fun _ => (42 : Int)) "idp1"))).2 "idp1" =
        (fun _ => (42 : Int)) "idp1") :=
  ⟨⟨rfl, rfl⟩,
    reduceToken_restores_idp1_balance true true rfl rfl
      (fun _ => (42 : Int)) (fun _ => 0)⟩

/-! ## Listener cleanup across test files

Each test file under verification subscribes listeners on the shared
per-node event emitters in its `before` hook and calls
`removeAllListeners` in its `after` hook. We model the emitter listener
table as a list of registered listeners tagged with the owning file. -/

/-- The shared callback event emitters used by the test files under
verification. -/
inductive CbEmitter where
  | rpE
  | idp1E
  | idp2E
  | as1E
  deriving Repr, DecidableEq

/-- A listener registered on an emitter for an event name, tagged by the
test file that registered it. -/
structure RegisteredListener where
  emitter : CbEmitter
  event : String
  file : String
  deriving Repr, DecidableEq

/-- The test files under verification that subscribe emitter listeners in
their `before` hooks. The two unnamed files are identified by their
`describe` titles. -/
def listenerTestFiles : List String :=
  ["ndid_enable_service_destination", "too_large_as_data",
   "verify_identity_2_idp_1_accept_1_reject_mode_1",
   "create_identity_2nd_idp", "ndid_enable_namespace"]

/-- Emitter/event pairs subscribed (via `.on`) in each file's `before`
hook, in source order. -/
def beforeSubscriptions : String → List (CbEmitter × String)
  | "ndid_enable_service_destination" =>
    [(CbEmitter.rpE, "callback"), (CbEmitter.idp1E, "callback"),
     (CbEmitter.as1E, "callback")]
  | "too_large_as_data" =>
    [(CbEmitter.rpE, "callback"), (CbEmitter.idp1E, "callback"),
     (CbEmitter.as1E, "callback")]
  | "verify_identity_2_idp_1_accept_1_reject_mode_1" =>
    [(CbEmitter.rpE, "callback"), (CbEmitter.idp1E, "callback"),
     (CbEmitter.idp2E, "callback")]
  | "create_identity_2nd_idp" =>
    [(CbEmitter.idp1E, "callback"), (CbEmitter.idp2E, "callback"),
     (CbEmitter.idp2E, "accessor_sign_callback")]
  | "ndid_enable_namespace" =>
    [(CbEmitter.idp1E, "callback"),
     (CbEmitter.idp1E, "accessor_sign_callback")]
  | _ => []

/-- Emitter/event pairs passed to `removeAllListeners` in each file's
`after` hook, in source order. -/
def afterRemovals : String → List (CbEmitter × String)
  | "ndid_enable_service_destination" =>
    [(CbEmitter.rpE, "callback"), (CbEmitter.idp1E, "callback"),
     (CbEmitter.as1E, "callback")]
  | "too_large_as_data" =>
    [(CbEmitter.rpE, "callback"), (CbEmitter.idp1E, "callback"),
     (CbEmitter.as1E, "callback")]
  | "verify_identity_2_idp_1_accept_1_reject_mode_1" =>
    [(CbEmitter.rpE, "callback"), (CbEmitter.idp1E, "callback"),
     (CbEmitter.idp2E, "callback")]
  | "create_identity_2nd_idp" =>
    [(CbEmitter.idp1E, "callback"), (CbEmitter.idp2E, "callback"),
     (CbEmitter.idp2E, "accessor_sign_callback")]
  | "ndid_enable_namespace" =>
    [(CbEmitter.idp1E, "callback"),
     (CbEmitter.idp1E, "accessor_sign_callback")]
  | _ => []

/-- Running a file's `before` hook appends its listeners, tagged with the
file, to the emitter listener table. -/
def applyBeforeHook (file : String) (s : List RegisteredListener) :
    List RegisteredListener :=
  s ++ (beforeSubscriptions file).map fun p =>
    { emitter := p.1, event := p.2, file := file }

/-- Running a file's `after` hook removes every listener (whichever file
registered it) on each emitter/event pair it calls `removeAllListeners`
on. -/
def applyAfterHook (file : String) (s : List RegisteredListener) :
    List RegisteredListener :=
  s.filter fun l => !(afterRemovals file).contains (l.emitter, l.event)

/-- Every pair subscribed in a verified file's `before` hook is removed by
its `after` hook. -/
theorem beforeSubscriptions_subset_afterRemovals (file : String)
    (hf : file ∈ listenerTestFiles) :
    ∀ p ∈ beforeSubscriptions file, p ∈ afterRemovals file := by
  simp only [listenerTestFiles, List.mem_cons, List.not_mem_nil,
    or_false] at hf
  rcases hf with rfl | rfl | rfl | rfl | rfl <;> decide

/-- C10: for each verified test file, running its `before` hook and then
its `after` hook on an emitter table holding no listener of that file
leaves no listener of that file registered. -/
theorem afterHook_removes_own_listeners (file : String)
    (s : List RegisteredListener)
    (hf : file ∈ listenerTestFiles)
    (hs : s.all (fun l => l.file != file) = true) :
    (applyAfterHook file (applyBeforeHook file s)).all
      (fun l => l.file != file) = true := by
  rw [List.all_eq_true] at hs ⊢
  intro l hl
  simp only [applyAfterHook, List.mem_filter, applyBeforeHook,
    List.mem_append, List.mem_map] at hl
  obtain ⟨hmem, hkeep⟩ := hl
  rcases hmem with hmem | ⟨p, hp, rfl⟩
  · exact hs l hmem
  · exfalso
    have hrem := beforeSubscriptions_subset_afterRemovals file hf p hp
    rw [Bool.not_eq_true', List.contains_eq_any_beq] at hkeep
    simp only [List.any_eq_false] at hkeep
    exact hkeep (p.1, p.2) hrem (by simp)

/-- Witness for C10 at the enable-service-destination file and an empty
listener table. -/
theorem afterHook_removes_own_listeners_witness :
    "ndid_enable_service_destination" ∈ listenerTestFiles ∧
    (([] : List RegisteredListener).all
      (fun l => l.file != "ndid_enable_service_destination") = true) ∧
    (applyAfterHook "ndid_enable_service_destination"
        (applyBeforeHook "ndid_enable_service_destination" [])).all
      (fun l => l.file != "ndid_enable_service_destination") = true :=
  ⟨by decide, rfl,
    afterHook_removes_own_listeners "ndid_enable_service_destination" []
      (by decide) rfl⟩
